import Mathlib

/-!
Verification of the medical-agent MCP repository's core logic:
the tiered billing calculator (`calculate_billing` in
`medical_mcp_server_fixed.py` and `medical_mcp_server.py`), the prompt
template store and JSON-RPC style protocol loop (`prompt_server_mcp.py`),
and the billed analysis orchestrator (`analyze_with_billing` in
`medical_agent_mcp.py`).

Modelling conventions:
* Python `int` is `ℤ` (arbitrary precision).
* Python `float` money amounts are modelled as exact rationals `ℚ`;
  Python's `round(x, 2)` (banker's rounding to 2 decimals) is modelled by
  `round2` below, an exact round-half-to-even on rationals.
* Python `dict` literals keyed by strings are association lists consulted
  with `List.lookup`, matching `in` tests and `.get(k, default)`.
* Side-effecting fields (`billing_date`, produced by `datetime.now()`) are
  omitted from result records: no claim concerns them.
* `json.loads` (stdlib) is abstracted: an input line of the protocol loop
  is a `JsonLine` — not parseable at all, parseable but not a JSON object,
  a parsed object whose dispatch raises inside the `try` block, or a
  well-formed request (with the `params.get` extractions pre-applied).
* The external LLM call inside `analyze_document` is abstracted as an
  `AnalysisStep` parameter describing how the analysis step ended.
-/

/-- Round-half-to-even of a rational to an integer, the rounding mode of
Python's builtin `round`. -/
def rhe (x : ℚ) : ℤ :=
  if x - ⌊x⌋ < 1/2 then ⌊x⌋
  else if 1/2 < x - ⌊x⌋ then ⌊x⌋ + 1
  else if ⌊x⌋ % 2 = 0 then ⌊x⌋ else ⌊x⌋ + 1

/-- Model of Python `round(x, 2)`: round half to even at 2 decimal places. -/
def round2 (x : ℚ) : ℚ := (rhe (100 * x) : ℚ) / 100

/-- Python `repr` of a list of strings, as used by
`f"... {list(BILLING_TIERS.keys())}"` in the error message. -/
def pyStrListRepr (xs : List String) : String :=
  "[" ++ String.intercalate ", " (xs.map fun s => "\x27" ++ s ++ "\x27") ++ "]"

/-- One entry of a `BILLING_TIERS` dict: a price and a description. -/
structure TierInfo where
  price : ℚ
  description : String
deriving DecidableEq, Repr

namespace FixedServer

/-- `BILLING_TIERS` from `medical_mcp_server_fixed.py` (lines 43-47). -/
def BILLING_TIERS : List (String × TierInfo) :=
  [("basic", ⟨1/10, "Basic SOAP analysis - vital signs, medications, basic conditions"⟩),
   ("comprehensive", ⟨1/2, "Full medical record analysis - detailed insights, recommendations"⟩),
   ("batch", ⟨1/20, "Bulk processing per document - optimized for multiple files"⟩)]

/-- `discount = 0.1 if analysis_type == "batch" and document_count > 10 else 0.0`
(line 234 of `medical_mcp_server_fixed.py`). -/
def volume_discount (analysis_type : String) (document_count : ℤ) : ℚ :=
  if analysis_type = "batch" ∧ 10 < document_count then 1/10 else 0

/-- The `customer_discounts` dict literal (line 237). -/
def customerDiscounts : List (String × ℚ) :=
  [("standard", 0), ("premium", 1/20), ("enterprise", 3/20)]

/-- `customer_discounts.get(customer_tier, 0.0)` (line 238). -/
def customer_discount (customer_tier : String) : ℚ :=
  (customerDiscounts.lookup customer_tier).getD 0

/-- The successful billing breakdown returned by `calculate_billing` in
`medical_mcp_server_fixed.py` (the `billing_date` timestamp field is
omitted). -/
structure BillingResult where
  analysis_type : String
  document_count : ℤ
  base_price_per_document : ℚ
  subtotal : ℚ
  total_discount : ℚ
  final_total : ℚ
  currency : String
deriving DecidableEq, Repr

/-- Result of `calculate_billing`: either the error dict (unknown analysis
type) or the billing breakdown dict. -/
inductive BillingOutcome where
  | error (msg : String)
  | ok (r : BillingResult)
deriving DecidableEq, Repr

/-- Whether a `calculate_billing` outcome is the error dict. -/
def BillingOutcome.isErr : BillingOutcome → Bool
  | .error _ => true
  | .ok _ => false

/-- `calculate_billing` from `medical_mcp_server_fixed.py` lines 207-253. -/
def calculate_billing (analysis_type : String) (document_count : ℤ)
    (customer_tier : String) : BillingOutcome :=
  match BILLING_TIERS.lookup analysis_type with
  | none => .error ("Invalid analysis type. Available types: " ++
      pyStrListRepr (BILLING_TIERS.map Prod.fst))
  | some tier =>
    let base_price := tier.price
    let discount := volume_discount analysis_type document_count
    let customer_discount := customer_discount customer_tier
    let subtotal := base_price * (document_count : ℚ)
    let total_discount := (discount + customer_discount) * subtotal
    let final_total := subtotal - total_discount
    .ok { analysis_type := analysis_type
          document_count := document_count
          base_price_per_document := base_price
          subtotal := round2 subtotal
          total_discount := round2 total_discount
          final_total := round2 final_total
          currency := "USD" }

end FixedServer

namespace OrigServer

/-- `BILLING_TIERS` from `medical_mcp_server.py` (lines 33-37). -/
def BILLING_TIERS : List (String × TierInfo) :=
  [("basic", ⟨1/10, "Basic SOAP analysis - vital signs, medications, basic conditions"⟩),
   ("comprehensive", ⟨1/2, "Full medical record analysis - detailed insights, recommendations"⟩),
   ("batch", ⟨1/20, "Bulk processing per document - optimized for multiple files"⟩)]

/-- The volume-discount branch of `medical_mcp_server.py` lines 462-466. -/
def volume_discount (analysis_type : String) (document_count : ℤ) : ℚ :=
  if analysis_type = "batch" ∧ 10 < document_count then 1/10 else 0

/-- The `customer_discounts` dict literal (lines 469-473). -/
def customerDiscounts : List (String × ℚ) :=
  [("standard", 0), ("premium", 1/20), ("enterprise", 3/20)]

/-- `customer_discounts.get(customer_tier, 0.0)` (line 475). -/
def customer_discount (customer_tier : String) : ℚ :=
  (customerDiscounts.lookup customer_tier).getD 0

/-- The billing dict of `medical_mcp_server.py` lines 481-492: like the
fixed server's but with the `volume_discount` and `customer_tier_discount`
fields itemized (the `billing_date` timestamp field is omitted). -/
structure BillingResultFull where
  analysis_type : String
  document_count : ℤ
  base_price_per_document : ℚ
  subtotal : ℚ
  volume_discount : ℚ
  customer_tier_discount : ℚ
  total_discount : ℚ
  final_total : ℚ
  currency : String
deriving DecidableEq, Repr

/-- Result of the original server's `calculate_billing`. -/
inductive BillingOutcomeFull where
  | error (msg : String)
  | ok (r : BillingResultFull)
deriving DecidableEq, Repr

/-- `calculate_billing` from `medical_mcp_server.py` lines 435-493. -/
def calculate_billing (analysis_type : String) (document_count : ℤ)
    (customer_tier : String) : BillingOutcomeFull :=
  match BILLING_TIERS.lookup analysis_type with
  | none => .error ("Invalid analysis type. Available types: " ++
      pyStrListRepr (BILLING_TIERS.map Prod.fst))
  | some tier =>
    let base_price := tier.price
    let discount := volume_discount analysis_type document_count
    let customer_discount := customer_discount customer_tier
    let subtotal := base_price * (document_count : ℚ)
    let total_discount := (discount + customer_discount) * subtotal
    let final_total := subtotal - total_discount
    .ok { analysis_type := analysis_type
          document_count := document_count
          base_price_per_document := base_price
          subtotal := round2 subtotal
          volume_discount := round2 (discount * subtotal)
          customer_tier_discount := round2 (customer_discount * subtotal)
          total_discount := round2 total_discount
          final_total := round2 final_total
          currency := "USD" }

/-- Projection of the original server's billing dict onto the fields the
fixed server's dict also has. -/
def BillingResultFull.toCommon (r : BillingResultFull) : FixedServer.BillingResult :=
  { analysis_type := r.analysis_type
    document_count := r.document_count
    base_price_per_document := r.base_price_per_document
    subtotal := r.subtotal
    total_discount := r.total_discount
    final_total := r.final_total
    currency := r.currency }

/-- Projection of the original server's outcome onto the fixed server's
outcome type, keeping error messages and common fields. -/
def BillingOutcomeFull.toCommon : BillingOutcomeFull → FixedServer.BillingOutcome
  | .error msg => .error msg
  | .ok r => .ok r.toCommon

end OrigServer

namespace PromptServer

/-- Python `s.replace(pat, r)` on `List Char`, fuel-indexed so that the
recursion is structural: replace every non-overlapping occurrence of `pat`
in `s`, scanning left to right (for nonempty `pat`; the empty pattern,
which never arises from a `\x7b\x7bkey\x7d\x7d` placeholder, is a no-op
scan). After a replacement at least one character is consumed, so fuel
`s.length` always suffices. -/
def replaceFuel (pat r : List Char) : Nat → List Char → List Char
  | _, [] => []
  | 0, s => s
  | fuel + 1, c :: rest =>
    if pat ≠ [] ∧ pat.isPrefixOf (c :: rest) then
      r ++ replaceFuel pat r fuel ((c :: rest).drop pat.length)
    else
      c :: replaceFuel pat r fuel rest

/-- Python `s.replace(pat, r)` on `List Char`. -/
def replaceL (pat r s : List Char) : List Char := replaceFuel pat r s.length s

/-- `pat` occurs as a contiguous substring of `s`. -/
def occursL (pat : List Char) : List Char → Bool
  | [] => pat.isPrefixOf []
  | c :: rest => pat.isPrefixOf (c :: rest) || occursL pat rest

/-- The placeholder text `{{key}}` built for a context key
(braces written as character escapes). -/
def placeholder (key : String) : List Char :=
  ("\x7b\x7b" ++ key ++ "\x7d\x7d").data

/-- The substitution loop of `get_prompt` (lines 33-36 of
`prompt_server_mcp.py`): for each context item in order, replace every
occurrence of `{{key}}` by the value. -/
def substCtx (context : List (String × String)) (prompt : List Char) : List Char :=
  context.foldl (fun acc kv => replaceL (placeholder kv.1) kv.2.data acc) prompt

/-- `PromptServer.get_prompt` (lines 26-38 of `prompt_server_mcp.py`).
The loaded `self.prompts` mapping is the `prompts` association list. -/
def get_prompt (prompts : List (String × String)) (name : String)
    (context : List (String × String)) : String :=
  match prompts.lookup name with
  | none => "No prompt found for: " ++ name
  | some p => String.mk (substCtx context p.data)

/-- One guidance entry of `get_tool_guidance`. -/
structure Guidance where
  required_tools : List String
  steps : List String
  prompt : Option String
deriving DecidableEq, Repr

/-- The `tool_guidance` dict literal of `get_tool_guidance`
(lines 45-81 of `prompt_server_mcp.py`). -/
def tool_guidance_table : List (String × Guidance) :=
  [("analyze_file",
    ⟨["filesystem"],
     ["First, use filesystem tool to read the medical document",
      "Then analyze the content using medical_processor prompt",
      "Do NOT attempt to analyze without reading the file first"],
     some "medical_processor"⟩),
   ("patient_summary",
    ⟨["filesystem"],
     ["Use filesystem to access patient records",
      "Apply patient_summary prompt for formatting",
      "Ensure HIPAA compliance in output"],
     some "patient_summary"⟩),
   ("billing",
    ⟨["stripe", "filesystem"],
     ["First verify the analysis was completed",
      "Use stripe tool to create billing record",
      "Do NOT skip billing verification"],
     none⟩),
   ("fetch_guidelines",
    ⟨["fetch"],
     ["Use fetch tool to retrieve medical guidelines",
      "Do NOT make up medical information",
      "Always cite sources"],
     none⟩)]

/-- `get_tool_guidance` (lines 44-89): dict lookup with the default entry
for unknown tasks. -/
def get_tool_guidance (task : String) : Guidance :=
  (tool_guidance_table.lookup task).getD
    ⟨[], ["No specific guidance available for this task"], none⟩

/-- A successfully JSON-parsed inbound message, with the fields the handler
reads (`method`, the used `params` entries, and the optional `id`). -/
structure MCPRequest where
  method : String
  paramName : String
  paramContext : List (String × String)
  paramTask : String
  id : Option ℤ
deriving DecidableEq, Repr

/-- `{name, description}` item of the `prompts/list` response. -/
structure PromptInfo where
  name : String
  description : String
deriving DecidableEq, Repr

/-- `{name, purpose, required_for}` item of the `tools/list` response. -/
structure ToolInfo where
  name : String
  purpose : String
  required_for : List String
deriving DecidableEq, Repr

/-- The static tool list returned by method `tools/list`
(lines 123-143 of `prompt_server_mcp.py`). -/
def toolsListStatic : List ToolInfo :=
  [⟨"filesystem", "Read medical documents and files",
    ["file analysis", "document reading"]⟩,
   ⟨"fetch", "Retrieve external medical resources",
    ["guidelines", "research papers"]⟩,
   ⟨"stripe", "Handle billing and payment processing",
    ["billing", "payment tracking"]⟩]

/-- The body a successful dispatch produces, one constructor per method
branch of `handle_mcp_request`. -/
inductive HandlerResult where
  | promptsList (items : List PromptInfo)
  | promptGet (prompt : String)
  | guidanceResult (g : Guidance)
  | toolsList (tools : List ToolInfo)
  | unknownMethod (msg : String)
deriving DecidableEq, Repr

/-- `handle_mcp_request` (lines 91-145 of `prompt_server_mcp.py`), with the
loaded prompt mapping `server`. -/
def handle_mcp_request (server : List (String × String)) (req : MCPRequest) :
    HandlerResult :=
  if req.method = "prompts/list" then
    .promptsList ((server.map Prod.fst).map fun n =>
      ⟨n, "Prompt for " ++ String.mk (replaceL [Char.ofNat 95] " ".data n.data)⟩)
  else if req.method = "prompts/get" then
    .promptGet (get_prompt server req.paramName req.paramContext)
  else if req.method = "tools/guidance" then
    .guidanceResult (get_tool_guidance req.paramTask)
  else if req.method = "tools/list" then
    .toolsList toolsListStatic
  else
    .unknownMethod ("Unknown method: " ++ req.method)

/-- One outbound line of the loop in `main`: either a normal response with
the request id (`request.get("id", 1)`), or the error response of an
`except` branch (`id` possibly `null`, an error `code` and `message`; the
`data` field carrying `str(e)` is omitted). -/
inductive MCPResponse where
  | result (id : ℤ) (body : HandlerResult)
  | rpcError (id : Option ℤ) (code : ℤ) (message : String)
deriving DecidableEq, Repr

/-- One line read by the `while True` loop of `main` (lines 147-191),
classified by what `json.loads` and the subsequent dispatch do with it:
* `malformed`: `json.loads` raises `JSONDecodeError`;
* `nonObject`: the line parses, but to a JSON value that is not an object
  (`null`, a number, a string, a boolean or an array), so every
  `request.get(...)` on it raises `AttributeError`;
* `badRequest`: the line parses to an object whose dispatch raises inside
  the `try` block after `json.loads` succeeded (for example `params` is
  present but not an object, so `params.get` raises); the object's own
  `id` value, read by `request.get("id", 1)`, is kept;
* `request`: an object handled without raising, with the fields the
  handler reads extracted. -/
inductive JsonLine where
  | malformed (raw : String)
  | nonObject (raw : String)
  | badRequest (id : Option ℤ) (excMsg : String)
  | request (req : MCPRequest)
deriving DecidableEq, Repr

/-- What one iteration of the loop body does: emit a response line and
read on, or die on an exception no `except` clause catches. -/
inductive StepOutcome where
  | reply (resp : MCPResponse)
  | crash (excMsg : String)
deriving DecidableEq, Repr

/-- Whether a step outcome is an uncaught exception. -/
def StepOutcome.isCrash : StepOutcome → Bool
  | .crash _ => true
  | .reply _ => false

/-- The body of the `while True` loop of `main` (lines 147-191) for one
line already read:
* an unparseable line produces the `-32700` parse-error response with
  `id = null` (`except json.JSONDecodeError`, lines 173-184 of the loop);
* a parseable line that is NOT a JSON object raises `AttributeError` at
  `request.get("method", "")`, and then the `except Exception` handler
  itself raises `AttributeError` again at `request.get("id", 1)`
  (line 183: `request` IS in `locals()` but is not a dict), so the
  exception escapes `main` and the loop dies;
* a parsed object whose dispatch raises is answered by the
  `except Exception` branch with code `-32603` and the object's id
  (default `1`);
* a well-formed request is dispatched and answered with its id
  (default `1`). -/
def handleLine (server : List (String × String)) : JsonLine → StepOutcome
  | .malformed _ => .reply (.rpcError none (-32700) "Parse error")
  | .nonObject _ => .crash "AttributeError"
  | .badRequest i _ => .reply (.rpcError (some (i.getD 1)) (-32603) "Internal error")
  | .request req => .reply (.result (req.id.getD 1) (handle_mcp_request server req))

/-- The `main` loop over the whole input stream: responses are emitted in
input order until either the input list is exhausted (`readline` returns
empty — the Boolean is `false`) or a line's handling crashes the loop
(the Boolean is `true`; nothing is emitted for that line or any later
one). -/
def runLoop (server : List (String × String)) :
    List JsonLine → List MCPResponse × Bool
  | [] => ([], false)
  | l :: rest =>
    match handleLine server l with
    | .reply r =>
      let p := runLoop server rest
      (r :: p.1, p.2)
    | .crash _ => ([], true)

end PromptServer

namespace MedicalAgent

/-- `BILLING_TIERS` from `medical_agent_mcp.py` (lines 27-31). -/
def BILLING_TIERS : List (String × TierInfo) :=
  [("basic", ⟨1/10, "Basic SOAP analysis"⟩),
   ("comprehensive", ⟨1/2, "Full medical record analysis"⟩),
   ("batch", ⟨1/20, "Bulk processing per document"⟩)]

/-- The dict returned by `analyze_document`: `{status: success, analysis}`
on success, `{status: error, error}` when the agent call raised. -/
inductive AnalyzeResult where
  | success (analysis : String)
  | failure (error : String)
deriving DecidableEq, Repr

/-- How the analysis step of `analyze_with_billing` ends: `analyze_document`
returns a result dict, or the awaited call raises an exception caught by
the outer `except` (the exception message is kept). -/
inductive AnalysisStep where
  | returns (r : AnalyzeResult)
  | raises (msg : String)
deriving DecidableEq, Repr

/-- The error message of a failed analysis step, `none` when the step
succeeded. -/
def stepErrorMsg : AnalysisStep → Option String
  | .raises m => some m
  | .returns (.failure m) => some m
  | .returns (.success _) => none

/-- The result dict of `analyze_with_billing`; absent dict keys are
`none`. -/
structure AgentResult where
  status : String
  analysis : Option String
  error : Option String
  billed : Option Bool
  tier : Option String
  price : Option ℚ
  customer_id : Option String
deriving DecidableEq, Repr

/-- `analyze_with_billing` from `medical_agent_mcp.py` lines 84-113,
parametric in how the analysis step ends. `analysis_type` is
`request_data.get("type", "basic")`; the tier default is
`BILLING_TIERS["basic"]`. Billing keys are added only on the success
branch; the outer `except` branch reports `billed = False`. -/
def analyze_with_billing (step : AnalysisStep) (analysis_type : String)
    (customer_id : String) : AgentResult :=
  match step with
  | .raises msg =>
      { status := "error", analysis := none, error := some msg,
        billed := some false, tier := none, price := none, customer_id := none }
  | .returns r =>
      let tier := (BILLING_TIERS.lookup analysis_type).getD
        ⟨1/10, "Basic SOAP analysis"⟩
      match r with
      | .success a =>
          { status := "success", analysis := some a, error := none,
            billed := some true, tier := some analysis_type,
            price := some tier.price, customer_id := some customer_id }
      | .failure m =>
          { status := "error", analysis := none, error := some m,
            billed := none, tier := none, price := none, customer_id := none }

end MedicalAgent

/-! ### Helper lemmas -/

theorem rhe_nonneg (x : ℚ) (hx : 0 ≤ x) : 0 ≤ rhe x := by
  unfold rhe
  have h0 : (0 : ℤ) ≤ ⌊x⌋ := Int.floor_nonneg.mpr hx
  split_ifs <;> omega

theorem round2_nonneg (x : ℚ) (hx : 0 ≤ x) : 0 ≤ round2 x := by
  unfold round2
  have := rhe_nonneg (100 * x) (by linarith)
  positivity

theorem rhe_zero : rhe 0 = 0 := by
  unfold rhe
  norm_num

theorem round2_zero : round2 0 = 0 := by
  unfold round2
  rw [mul_zero, rhe_zero]
  norm_num

theorem rhe_le_floor_add_one (x : ℚ) : rhe x ≤ ⌊x⌋ + 1 := by
  unfold rhe
  split_ifs <;> omega

theorem round2_neg_of_le (x : ℚ) (hx : x ≤ -1/20) : round2 x < 0 := by
  unfold round2
  have h1 : rhe (100 * x) ≤ ⌊(100 : ℚ) * x⌋ + 1 := rhe_le_floor_add_one _
  have h2 : ⌊(100 : ℚ) * x⌋ ≤ -5 := by
    have hle : (100 : ℚ) * x ≤ ((-5 : ℤ) : ℚ) := by push_cast; linarith
    simpa using Int.floor_le_floor hle
  have h3 : rhe (100 * x) ≤ -4 := by omega
  have h4 : ((rhe (100 * x) : ℚ)) ≤ -4 := by exact_mod_cast h3
  linarith

namespace FixedServer

theorem customer_discount_cases (c : String) :
    customer_discount c = 0 ∨ customer_discount c = 1/20 ∨
    customer_discount c = 3/20 := by
  simp only [customer_discount, customerDiscounts, List.lookup]
  split
  · simp
  split
  · simp
  split
  · simp
  · simp

theorem customer_discount_nonneg (c : String) : 0 ≤ customer_discount c := by
  rcases customer_discount_cases c with h | h | h <;> rw [h] <;> norm_num

theorem customer_discount_le (c : String) : customer_discount c ≤ 3/20 := by
  rcases customer_discount_cases c with h | h | h <;> rw [h] <;> norm_num

theorem volume_discount_cases (t : String) (n : ℤ) :
    volume_discount t n = 0 ∨ volume_discount t n = 1/10 := by
  unfold volume_discount
  split_ifs <;> simp

theorem volume_discount_nonneg (t : String) (n : ℤ) : 0 ≤ volume_discount t n := by
  rcases volume_discount_cases t n with h | h <;> rw [h] <;> norm_num

theorem volume_discount_le (t : String) (n : ℤ) : volume_discount t n ≤ 1/10 := by
  rcases volume_discount_cases t n with h | h <;> rw [h] <;> norm_num

theorem tier_price_cases (t : String) (tier : TierInfo)
    (h : BILLING_TIERS.lookup t = some tier) :
    tier.price = 1/10 ∨ tier.price = 1/2 ∨ tier.price = 1/20 := by
  simp only [BILLING_TIERS, List.lookup] at h
  split at h
  · cases h; simp
  split at h
  · cases h; simp
  split at h
  · cases h; simp
  · cases h

theorem tier_price_pos (t : String) (tier : TierInfo)
    (h : BILLING_TIERS.lookup t = some tier) : 0 < tier.price := by
  rcases tier_price_cases t tier h with hp | hp | hp <;> rw [hp] <;> norm_num

theorem tier_price_ge (t : String) (tier : TierInfo)
    (h : BILLING_TIERS.lookup t = some tier) : 1/20 ≤ tier.price := by
  rcases tier_price_cases t tier h with hp | hp | hp <;> rw [hp] <;> norm_num

/-- Unfolding lemma: on a known analysis type, `calculate_billing` returns
the billing breakdown built from that tier. -/
theorem calculate_billing_of_lookup (t : String) (tier : TierInfo) (n : ℤ)
    (c : String) (h : BILLING_TIERS.lookup t = some tier) :
    calculate_billing t n c =
      .ok { analysis_type := t
            document_count := n
            base_price_per_document := tier.price
            subtotal := round2 (tier.price * (n : ℚ))
            total_discount := round2 ((volume_discount t n + customer_discount c) *
              (tier.price * (n : ℚ)))
            final_total := round2 (tier.price * (n : ℚ) -
              (volume_discount t n + customer_discount c) * (tier.price * (n : ℚ)))
            currency := "USD" } := by
  unfold calculate_billing
  rw [h]

/-- Unfolding lemma: on an unknown analysis type, `calculate_billing`
returns the error dict. -/
theorem calculate_billing_of_lookup_none (t : String) (n : ℤ) (c : String)
    (h : BILLING_TIERS.lookup t = none) :
    calculate_billing t n c =
      .error ("Invalid analysis type. Available types: " ++
        pyStrListRepr (BILLING_TIERS.map Prod.fst)) := by
  unfold calculate_billing
  rw [h]

end FixedServer

/-! ### Claims about the billing calculator -/

/-- C1 counterexample: for tier "batch", 11 documents and customer class
"standard", `calculate_billing` reports `final_total = 0.50`, not
`round(0.05 * 11, 2) = 0.55`: the batch volume discount applies to
standard-class customers too, so the claim as stated is false. -/
theorem claim1_counterexample :
    FixedServer.calculate_billing "batch" 11 "standard" =
      .ok ⟨"batch", 11, 1/20, 11/20, 3/50, 1/2, "USD"⟩ ∧
    (1/2 : ℚ) ≠ round2 (1/20 * 11) := by
  constructor
  · rw [FixedServer.calculate_billing_of_lookup "batch"
      ⟨1/20, "Bulk processing per document - optimized for multiple files"⟩
      11 "standard" rfl]
    norm_num [FixedServer.volume_discount, FixedServer.customer_discount,
      FixedServer.customerDiscounts, round2, rhe, List.lookup, Int.fract]
  · norm_num [round2, rhe, Int.fract]

/-- C1 amended: for every known tier and every document count n ≥ 1 such
that the batch volume threshold is not hit (not (tier = "batch" and
n > 10)), a standard-class customer is not discounted:
`calculate_billing` reports `final_total = round2(unit_price * n)` (and a
zero total discount). -/
theorem claim1_amended (t : String) (tier : TierInfo) (n : ℤ)
    (h : FixedServer.BILLING_TIERS.lookup t = some tier) (hn : 1 ≤ n)
    (hex : ¬(t = "batch" ∧ 10 < n)) :
    FixedServer.calculate_billing t n "standard" =
      .ok ⟨t, n, tier.price, round2 (tier.price * (n : ℚ)), 0,
           round2 (tier.price * (n : ℚ)), "USD"⟩ := by
  rw [FixedServer.calculate_billing_of_lookup t tier n "standard" h]
  have hv : FixedServer.volume_discount t n = 0 := by
    unfold FixedServer.volume_discount
    rw [if_neg hex]
  have hc : FixedServer.customer_discount "standard" = 0 := rfl
  rw [hv, hc]
  simp [round2_zero]

/-- C1 witness: tier "basic", one document, standard class: the final
total is the unit price 0.10. -/
theorem claim1_witness :
    FixedServer.BILLING_TIERS.lookup "basic" =
      some ⟨1/10, "Basic SOAP analysis - vital signs, medications, basic conditions"⟩ ∧
    (1 : ℤ) ≤ 1 ∧ ¬("basic" = "batch" ∧ (10 : ℤ) < 1) ∧
    FixedServer.calculate_billing "basic" 1 "standard" =
      .ok ⟨"basic", 1, 1/10, 1/10, 0, 1/10, "USD"⟩ := by
  refine ⟨rfl, le_refl 1, by simp, ?_⟩
  have h := claim1_amended "basic"
    ⟨1/10, "Basic SOAP analysis - vital signs, medications, basic conditions"⟩
    1 rfl (le_refl 1) (by simp)
  rw [h]
  norm_num [round2, rhe, Int.fract]

/-- C2 counterexample: `calculate_billing` performs no validation of
`document_count`: on "basic", −1 document, standard class it returns a
normal billing breakdown (not an error result), with a negative total. -/
theorem claim2_counterexample :
    FixedServer.calculate_billing "basic" (-1) "standard" =
      .ok ⟨"basic", -1, 1/10, -1/10, 0, -1/10, "USD"⟩ ∧
    (FixedServer.calculate_billing "basic" (-1) "standard").isErr = false := by
  have h : FixedServer.calculate_billing "basic" (-1) "standard" =
      .ok ⟨"basic", -1, 1/10, -1/10, 0, -1/10, "USD"⟩ := by
    rw [FixedServer.calculate_billing_of_lookup "basic"
      ⟨1/10, "Basic SOAP analysis - vital signs, medications, basic conditions"⟩
      (-1) "standard" rfl]
    norm_num [FixedServer.volume_discount, FixedServer.customer_discount,
      FixedServer.customerDiscounts, round2, rhe, List.lookup, Int.fract]
  exact ⟨h, by rw [h]; rfl⟩

/-- C2 amended: negative document counts are NOT rejected: there is no
`InvalidInput` path in `calculate_billing`. For every known tier, count
n < 0 and customer class, it returns an ordinary billing breakdown whose
reported subtotal is `round2(unit_price * n)`, a strictly negative
amount. -/
theorem claim2_amended (t : String) (tier : TierInfo) (n : ℤ) (c : String)
    (h : FixedServer.BILLING_TIERS.lookup t = some tier) (hn : n < 0) :
    FixedServer.calculate_billing t n c =
      .ok { analysis_type := t
            document_count := n
            base_price_per_document := tier.price
            subtotal := round2 (tier.price * (n : ℚ))
            total_discount := round2 ((FixedServer.volume_discount t n +
              FixedServer.customer_discount c) * (tier.price * (n : ℚ)))
            final_total := round2 (tier.price * (n : ℚ) -
              (FixedServer.volume_discount t n +
                FixedServer.customer_discount c) * (tier.price * (n : ℚ)))
            currency := "USD" } ∧
    round2 (tier.price * (n : ℚ)) < 0 := by
  refine ⟨FixedServer.calculate_billing_of_lookup t tier n c h, ?_⟩
  apply round2_neg_of_le
  have hp := FixedServer.tier_price_ge t tier h
  have hpos := FixedServer.tier_price_pos t tier h
  have hn1 : (n : ℚ) ≤ -1 := by
    have : n ≤ -1 := by omega
    exact_mod_cast this
  have hm : tier.price * (n : ℚ) ≤ tier.price * (-1) :=
    mul_le_mul_of_nonneg_left hn1 (le_of_lt hpos)
  linarith

/-- C2 witness: "basic", −1 document, standard class: an ordinary (not
error) breakdown with subtotal −0.10 < 0. -/
theorem claim2_witness :
    FixedServer.calculate_billing "basic" (-1) "standard" =
      .ok ⟨"basic", -1, 1/10, -1/10, 0, -1/10, "USD"⟩ ∧ (-1/10 : ℚ) < 0 := by
  have h := claim2_amended "basic"
    ⟨1/10, "Basic SOAP analysis - vital signs, medications, basic conditions"⟩
    (-1) "standard" rfl (by norm_num)
  refine ⟨h.1.trans ?_, by norm_num⟩
  norm_num [FixedServer.volume_discount, FixedServer.customer_discount,
    FixedServer.customerDiscounts, round2, rhe, List.lookup, Int.fract]

/-- C3 counterexample: at tier "batch", 11 documents, standard class, the
REPORTED rounded fields violate `final_total = subtotal - total_discount`:
0.55 − 0.06 = 0.49 but the reported final_total is 0.50 (each field is
rounded separately, and the halves round to even in different
directions). -/
theorem claim3_counterexample :
    FixedServer.calculate_billing "batch" 11 "standard" =
      .ok ⟨"batch", 11, 1/20, 11/20, 3/50, 1/2, "USD"⟩ ∧
    (1/2 : ℚ) ≠ 11/20 - 3/50 := by
  constructor
  · rw [FixedServer.calculate_billing_of_lookup "batch"
      ⟨1/20, "Bulk processing per document - optimized for multiple files"⟩
      11 "standard" rfl]
    norm_num [FixedServer.volume_discount, FixedServer.customer_discount,
      FixedServer.customerDiscounts, round2, rhe, List.lookup, Int.fract]
  · norm_num

/-- C3 amended: for every valid input (known tier, n ≥ 0, any class) the
UNROUNDED quantities satisfy `final = subtotal − discount` (each reported
field is the 2-decimal rounding of the corresponding unrounded quantity,
with the final total rounded from the exact difference), the reported
`final_total` is ≥ 0, and n = 0 gives reported subtotal = final_total = 0.
The equation need not survive the per-field rounding (see the
counterexample). -/
theorem claim3_amended (t : String) (tier : TierInfo) (n : ℤ) (c : String)
    (r : FixedServer.BillingResult)
    (h : FixedServer.BILLING_TIERS.lookup t = some tier) (hn : 0 ≤ n)
    (hr : FixedServer.calculate_billing t n c = .ok r) :
    r.subtotal = round2 (tier.price * (n : ℚ)) ∧
    r.total_discount = round2 ((FixedServer.volume_discount t n +
      FixedServer.customer_discount c) * (tier.price * (n : ℚ))) ∧
    r.final_total = round2 (tier.price * (n : ℚ) -
      (FixedServer.volume_discount t n + FixedServer.customer_discount c) *
        (tier.price * (n : ℚ))) ∧
    0 ≤ r.final_total ∧
    (n = 0 → r.subtotal = 0 ∧ r.final_total = 0) := by
  rw [FixedServer.calculate_billing_of_lookup t tier n c h] at hr
  cases hr
  refine ⟨rfl, rfl, rfl, ?_, ?_⟩
  · apply round2_nonneg
    have hpos := FixedServer.tier_price_pos t tier h
    have hnq : (0 : ℚ) ≤ (n : ℚ) := by exact_mod_cast hn
    have hsub : 0 ≤ tier.price * (n : ℚ) := mul_nonneg hpos.le hnq
    have hv0 := FixedServer.volume_discount_nonneg t n
    have hv1 := FixedServer.volume_discount_le t n
    have hc0 := FixedServer.customer_discount_nonneg c
    have hc1 := FixedServer.customer_discount_le c
    have key : 0 ≤ (1 - (FixedServer.volume_discount t n +
        FixedServer.customer_discount c)) * (tier.price * (n : ℚ)) :=
      mul_nonneg (by linarith) hsub
    nlinarith [key]
  · intro h0
    subst h0
    norm_num [round2_zero]

/-- C3 witness: tier "basic", 0 documents, standard class: reported
subtotal and final total are 0 and the final total is nonnegative. -/
theorem claim3_witness :
    FixedServer.calculate_billing "basic" 0 "standard" =
      .ok ⟨"basic", 0, 1/10, 0, 0, 0, "USD"⟩ ∧
    (0 : ℚ) ≤ 0 ∧ ((0 : ℚ) = 0 ∧ (0 : ℚ) = 0) := by
  have heq : FixedServer.calculate_billing "basic" 0 "standard" =
      .ok ⟨"basic", 0, 1/10, 0, 0, 0, "USD"⟩ := by
    rw [FixedServer.calculate_billing_of_lookup "basic"
      ⟨1/10, "Basic SOAP analysis - vital signs, medications, basic conditions"⟩
      0 "standard" rfl]
    norm_num [FixedServer.volume_discount, FixedServer.customer_discount,
      FixedServer.customerDiscounts, round2, rhe, List.lookup, Int.fract]
  have h := claim3_amended "basic"
    ⟨1/10, "Basic SOAP analysis - vital signs, medications, basic conditions"⟩
    0 "standard" ⟨"basic", 0, 1/10, 0, 0, 0, "USD"⟩ rfl (le_refl 0) heq
  exact ⟨heq, h.2.2.2.1, h.2.2.2.2 rfl⟩

/-- C4: the volume discount rate of `calculate_billing` is exactly 0.10
iff the tier is "batch" and the document count is strictly above 10, and
is 0.0 otherwise; in particular "batch"/11 gets 0.10 and "batch"/10 gets
0.0 (strict threshold). -/
theorem claim4_volume_threshold :
    (∀ t n, FixedServer.volume_discount t n = 1/10 ↔ (t = "batch" ∧ 10 < n)) ∧
    FixedServer.volume_discount "batch" 11 = 1/10 ∧
    FixedServer.volume_discount "batch" 10 = 0 ∧
    (∀ t n, FixedServer.volume_discount t n = 1/10 ∨
      FixedServer.volume_discount t n = 0) := by
  refine ⟨?_, by norm_num [FixedServer.volume_discount],
    by norm_num [FixedServer.volume_discount], ?_⟩
  · intro t n
    unfold FixedServer.volume_discount
    split_ifs with h
    · exact iff_of_true rfl h
    · exact iff_of_false (by norm_num) h
  · intro t n
    unfold FixedServer.volume_discount
    split_ifs <;> simp

/-- C4 witness: the iff applied at tier "batch", 12 documents. -/
theorem claim4_witness : FixedServer.volume_discount "batch" 12 = 1/10 :=
  (claim4_volume_threshold.1 "batch" 12).mpr ⟨rfl, by norm_num⟩

/-- C5: for every known tier, count and class, the reported total discount
of `calculate_billing` is the 2-decimal rounding of
`(volume_rate + customer_rate) * subtotal` (rates summed first, applied
once); the customer rate comes from the fixed table
standard ↦ 0, premium ↦ 0.05, enterprise ↦ 0.15, any other class
defaulting to 0 without error; and at "batch"/11/"enterprise" additive
stacking (0.14) differs from compounding two successive multiplications
(0.13), so the code's stacking is genuinely additive. -/
theorem claim5_discount_stacking (t : String) (tier : TierInfo) (n : ℤ)
    (c : String) (h : FixedServer.BILLING_TIERS.lookup t = some tier) :
    FixedServer.calculate_billing t n c =
      .ok { analysis_type := t
            document_count := n
            base_price_per_document := tier.price
            subtotal := round2 (tier.price * (n : ℚ))
            total_discount := round2 ((FixedServer.volume_discount t n +
              FixedServer.customer_discount c) * (tier.price * (n : ℚ)))
            final_total := round2 (tier.price * (n : ℚ) -
              (FixedServer.volume_discount t n +
                FixedServer.customer_discount c) * (tier.price * (n : ℚ)))
            currency := "USD" } ∧
    FixedServer.customer_discount "standard" = 0 ∧
    FixedServer.customer_discount "premium" = 1/20 ∧
    FixedServer.customer_discount "enterprise" = 3/20 ∧
    (∀ c', c' ≠ "standard" → c' ≠ "premium" → c' ≠ "enterprise" →
      FixedServer.customer_discount c' = 0) ∧
    (round2 ((FixedServer.volume_discount "batch" 11 +
        FixedServer.customer_discount "enterprise") * (1/20 * 11)) = 7/50 ∧
     round2 ((1 - (1 - FixedServer.volume_discount "batch" 11) *
        (1 - FixedServer.customer_discount "enterprise")) * (1/20 * 11)) = 13/100 ∧
     (7/50 : ℚ) ≠ 13/100) := by
  have hv11 : FixedServer.volume_discount "batch" 11 = 1/10 := by
    norm_num [FixedServer.volume_discount]
  have hce : FixedServer.customer_discount "enterprise" = 3/20 := rfl
  refine ⟨FixedServer.calculate_billing_of_lookup t tier n c h, rfl, rfl, rfl,
    ?_, ?_, ?_, by norm_num⟩
  · intro c' h1 h2 h3
    have b1 : (c' == "standard") = false := beq_eq_false_iff_ne.mpr h1
    have b2 : (c' == "premium") = false := beq_eq_false_iff_ne.mpr h2
    have b3 : (c' == "enterprise") = false := beq_eq_false_iff_ne.mpr h3
    simp [FixedServer.customer_discount, FixedServer.customerDiscounts,
      List.lookup, b1, b2, b3]
  · rw [hv11, hce, show ((1:ℚ)/10 + 3/20) * (1/20 * 11) = 11/80 by norm_num]
    unfold round2 rhe
    norm_num
  · rw [hv11, hce,
      show ((1:ℚ) - (1 - 1/10) * (1 - 3/20)) * (1/20 * 11) = 517/4000 by norm_num]
    unfold round2 rhe
    norm_num

/-- C5 witness: instantiated at "basic", 10 documents, "enterprise", and
the unknown-class default at class "gold". -/
theorem claim5_witness :
    FixedServer.calculate_billing "basic" 10 "enterprise" =
      .ok ⟨"basic", 10, 1/10, 1, 3/20, 17/20, "USD"⟩ ∧
    FixedServer.customer_discount "gold" = 0 := by
  have h := claim5_discount_stacking "basic"
    ⟨1/10, "Basic SOAP analysis - vital signs, medications, basic conditions"⟩
    10 "enterprise" rfl
  refine ⟨h.1.trans ?_, h.2.2.2.2.1 "gold" (by simp) (by simp) (by simp)⟩
  have hv : FixedServer.volume_discount "basic" 10 = 0 := by
    norm_num [FixedServer.volume_discount]
  have hc : FixedServer.customer_discount "enterprise" = 3/20 := rfl
  rw [hv, hc]
  rw [show (1:ℚ)/10 * ((10:ℤ) : ℚ) = 1 by norm_num]
  rw [show ((0:ℚ) + 3/20) * 1 = 3/20 by norm_num,
    show (1:ℚ) - 3/20 = 17/20 by norm_num]
  rw [show round2 1 = 1 by unfold round2 rhe; norm_num,
    show round2 (3/20) = 3/20 by unfold round2 rhe; norm_num,
    show round2 (17/20) = 17/20 by unfold round2 rhe; norm_num]

/-- C6: for every tier name not in `BILLING_TIERS` and any count and
class, `calculate_billing` returns the structured error dict (carrying an
error message listing the available types); being a total function, it
returns this value rather than raising. -/
theorem claim6_unknown_tier (t : String) (n : ℤ) (c : String)
    (h : FixedServer.BILLING_TIERS.lookup t = none) :
    FixedServer.calculate_billing t n c =
      .error ("Invalid analysis type. Available types: " ++
        pyStrListRepr (FixedServer.BILLING_TIERS.map Prod.fst)) ∧
    (FixedServer.calculate_billing t n c).isErr = true := by
  have e := FixedServer.calculate_billing_of_lookup_none t n c h
  exact ⟨e, by rw [e]; rfl⟩

/-- C6 witness: the spec's example input "nonexistent_tier". -/
theorem claim6_witness :
    FixedServer.calculate_billing "nonexistent_tier" 1 "standard" =
      .error ("Invalid analysis type. Available types: " ++
        pyStrListRepr (FixedServer.BILLING_TIERS.map Prod.fst)) ∧
    (FixedServer.calculate_billing "nonexistent_tier" 1 "standard").isErr = true :=
  claim6_unknown_tier "nonexistent_tier" 1 "standard" rfl

/-! ### Claims about the prompt server, protocol loop, agent and the two
billing implementations -/

theorem replaceFuel_of_not_occurs (pat r : List Char) (fuel : Nat)
    (s : List Char) (h : PromptServer.occursL pat s = false) :
    PromptServer.replaceFuel pat r fuel s = s := by
  induction fuel generalizing s with
  | zero => cases s <;> rfl
  | succ fuel ih =>
    cases s with
    | nil => rfl
    | cons c rest =>
      have hh : pat.isPrefixOf (c :: rest) = false ∧
          PromptServer.occursL pat rest = false := by
        simpa [PromptServer.occursL, Bool.or_eq_false_iff] using h
      simp only [PromptServer.replaceFuel]
      rw [if_neg]
      · rw [ih rest hh.2]
      · rintro ⟨-, hpre⟩
        simp [hh.1] at hpre

theorem replaceL_of_not_occurs (pat r s : List Char)
    (h : PromptServer.occursL pat s = false) :
    PromptServer.replaceL pat r s = s :=
  replaceFuel_of_not_occurs pat r s.length s h

theorem substCtx_of_not_occurs (ctx : List (String × String)) (s : List Char)
    (h : ∀ kv ∈ ctx, PromptServer.occursL (PromptServer.placeholder kv.1) s = false) :
    PromptServer.substCtx ctx s = s := by
  induction ctx with
  | nil => rfl
  | cons kv rest ih =>
    show List.foldl _ _ _ = s
    rw [List.foldl_cons,
      replaceL_of_not_occurs _ _ _ (h kv (List.mem_cons_self kv rest))]
    exact ih fun kv' hkv' => h kv' (List.mem_cons_of_mem kv hkv')

/-- C7: `get_prompt` substitution behaviour: (1) an unknown template name
returns the sentinel string, not an error; (2) a second substitution pass
with the same context is the identity whenever no context key's
placeholder occurs in the first pass's output (idempotence on unresolved
placeholders that match no key); (3) the spec's round trip: a template
containing the `name` placeholder with context `name ↦ X` yields "X" in
its place; (4) a placeholder with no matching context key is left
verbatim. -/
theorem claim7_prompt_substitution (prompts : List (String × String))
    (name : String) (ctx : List (String × String)) (t : String) :
    (prompts.lookup name = none →
      PromptServer.get_prompt prompts name ctx = "No prompt found for: " ++ name) ∧
    ((∀ kv ∈ ctx, PromptServer.occursL (PromptServer.placeholder kv.1)
        (PromptServer.substCtx ctx t.data) = false) →
      PromptServer.substCtx ctx (PromptServer.substCtx ctx t.data) =
        PromptServer.substCtx ctx t.data) ∧
    PromptServer.get_prompt [("greet", "Hello \x7b\x7bname\x7d\x7d!")] "greet"
      [("name", "X")] = "Hello X!" ∧
    PromptServer.get_prompt [("greet", "Hello \x7b\x7bname\x7d\x7d!")] "greet"
      [("missing", "X")] = "Hello \x7b\x7bname\x7d\x7d!" := by
  refine ⟨?_, ?_, by decide, by decide⟩
  · intro h
    unfold PromptServer.get_prompt
    rw [h]
  · intro h
    exact substCtx_of_not_occurs ctx (PromptServer.substCtx ctx t.data) h

/-- C7 witness: idempotence applied to the concrete template
"Hello \x7b\x7bname\x7d\x7d!" with context name ↦ X, and the sentinel for
an unknown name. -/
theorem claim7_witness :
    PromptServer.substCtx [("name", "X")]
      (PromptServer.substCtx [("name", "X")] "Hello \x7b\x7bname\x7d\x7d!".data) =
      PromptServer.substCtx [("name", "X")] "Hello \x7b\x7bname\x7d\x7d!".data ∧
    PromptServer.get_prompt [] "nope" [] = "No prompt found for: nope" := by
  have h := claim7_prompt_substitution [] "nope" [("name", "X")]
    "Hello \x7b\x7bname\x7d\x7d!"
  exact ⟨h.2.1 (by decide), h.1 rfl⟩

/-- C8 counterexample: the loop does NOT terminate only at end-of-input.
The line `null` is parseable as JSON but is not an object: dispatch raises
`AttributeError`, and the `except Exception` handler raises
`AttributeError` again at `request.get("id", 1)` (line 183), so the loop
dies. On the input [`null`-line, malformed line] the loop crashes
(the crash flag is set), and it emits 0 responses for the 2 input lines —
the second line is never read, refuting both "one parse-error response,
then continue" at every bad message and "terminates only at
end-of-input". -/
theorem claim8_counterexample :
    (PromptServer.runLoop []
      [.nonObject "null", .malformed "not json"]).2 = true ∧
    (PromptServer.runLoop []
      [.nonObject "null", .malformed "not json"]).1.length = 0 ∧
    ([PromptServer.JsonLine.nonObject "null",
      .malformed "not json"]).length = 2 := by
  refine ⟨rfl, rfl, rfl⟩

/-- C8 amended: restricted to input streams with no parseable-non-object
line (no line whose handling crashes the loop): every line that is not
parseable as JSON is answered, at its own position, by the parse-error
response with code −32700 and id null, the loop emits exactly one response
per input line, and it terminates normally at end-of-input (crash flag
false). Without that restriction the claim fails: a JSON-parseable
non-object line such as `null` kills the loop (see the
counterexample). -/
theorem claim8_amended (server : List (String × String))
    (lines : List PromptServer.JsonLine)
    (hsafe : ∀ l ∈ lines, (PromptServer.handleLine server l).isCrash = false) :
    (PromptServer.runLoop server lines).2 = false ∧
    (PromptServer.runLoop server lines).1.length = lines.length ∧
    ∀ i : ℕ, ∀ raw, lines[i]? = some (.malformed raw) →
      (PromptServer.runLoop server lines).1[i]? =
        some (PromptServer.MCPResponse.rpcError none (-32700) "Parse error") := by
  induction lines with
  | nil =>
    refine ⟨rfl, rfl, fun i raw hi => ?_⟩
    simp at hi
  | cons l rest ih =>
    have hl := hsafe l (List.mem_cons_self l rest)
    obtain ⟨ih1, ih2, ih3⟩ :=
      ih fun l' h' => hsafe l' (List.mem_cons_of_mem l h')
    cases hstep : PromptServer.handleLine server l with
    | crash m =>
      rw [hstep] at hl
      simp [PromptServer.StepOutcome.isCrash] at hl
    | reply r =>
      have hrun : PromptServer.runLoop server (l :: rest) =
          (r :: (PromptServer.runLoop server rest).1,
           (PromptServer.runLoop server rest).2) := by
        simp only [PromptServer.runLoop, hstep]
      rw [hrun]
      refine ⟨ih1, by simp [ih2], fun i raw hi => ?_⟩
      cases i with
      | zero =>
        simp only [List.getElem?_cons_zero, Option.some.injEq] at hi
        subst hi
        simp only [PromptServer.handleLine] at hstep
        injection hstep with h3
        simp [← h3]
      | succ j =>
        simp only [List.getElem?_cons_succ] at hi ⊢
        exact ih3 j raw hi

/-- C8 witness: a stream with one unparseable line and one well-formed
`prompts/list` request: no crash, two responses, and the parse error with
code −32700 and id null at position 0. -/
theorem claim8_witness :
    (∀ l ∈ [PromptServer.JsonLine.malformed "oops",
        .request ⟨"prompts/list", "", [], "", some 7⟩],
      (PromptServer.handleLine [] l).isCrash = false) ∧
    (PromptServer.runLoop [] [.malformed "oops",
      .request ⟨"prompts/list", "", [], "", some 7⟩]).2 = false ∧
    (PromptServer.runLoop [] [.malformed "oops",
      .request ⟨"prompts/list", "", [], "", some 7⟩]).1.length = 2 ∧
    (PromptServer.runLoop [] [.malformed "oops",
      .request ⟨"prompts/list", "", [], "", some 7⟩]).1[0]? =
      some (PromptServer.MCPResponse.rpcError none (-32700) "Parse error") := by
  have h := claim8_amended []
    [.malformed "oops", .request ⟨"prompts/list", "", [], "", some 7⟩]
    (by decide)
  exact ⟨by decide, h.1, h.2.1, h.2.2 0 "oops" rfl⟩

/-- C9: whenever the analysis step of `analyze_with_billing` ends in an
error — whether `analyze_document` reports `status = error` or the awaited
call raises — the returned result has `status = "error"`, carries the
error message, is never marked `billed = True`, and has no tier or price
billing fields; only a successful analysis is billed. -/
theorem claim9_no_billing_on_error (step : MedicalAgent.AnalysisStep)
    (msg : String) (analysis_type : String) (customer_id : String)
    (h : MedicalAgent.stepErrorMsg step = some msg) :
    (MedicalAgent.analyze_with_billing step analysis_type customer_id).status = "error" ∧
    (MedicalAgent.analyze_with_billing step analysis_type customer_id).error = some msg ∧
    (MedicalAgent.analyze_with_billing step analysis_type customer_id).billed ≠ some true ∧
    (MedicalAgent.analyze_with_billing step analysis_type customer_id).tier = none ∧
    (MedicalAgent.analyze_with_billing step analysis_type customer_id).price = none := by
  cases step with
  | raises m =>
    simp only [MedicalAgent.stepErrorMsg, Option.some.injEq] at h
    subst h
    simp [MedicalAgent.analyze_with_billing]
  | returns r =>
    cases r with
    | success a => simp [MedicalAgent.stepErrorMsg] at h
    | failure m =>
      simp only [MedicalAgent.stepErrorMsg, Option.some.injEq] at h
      subst h
      simp [MedicalAgent.analyze_with_billing]

/-- C9 witness: a collaborator-reported failure ("model unavailable") on a
comprehensive analysis for customer "cust_42" is not billed. -/
theorem claim9_witness :
    MedicalAgent.stepErrorMsg (.returns (.failure "model unavailable")) =
      some "model unavailable" ∧
    (MedicalAgent.analyze_with_billing (.returns (.failure "model unavailable"))
      "comprehensive" "cust_42").status = "error" ∧
    (MedicalAgent.analyze_with_billing (.returns (.failure "model unavailable"))
      "comprehensive" "cust_42").billed ≠ some true := by
  have h := claim9_no_billing_on_error (.returns (.failure "model unavailable"))
    "model unavailable" "comprehensive" "cust_42" rfl
  exact ⟨rfl, h.1, h.2.2.1⟩

/-- C10: the two `calculate_billing` implementations agree on every input:
projecting the original server's result onto the fields the fixed server
also reports (dropping only its extra `volume_discount` and
`customer_tier_discount` items) gives exactly the fixed server's result —
same error inputs with the same message, and equal values of every common
field otherwise. -/
theorem claim10_servers_agree (t : String) (n : ℤ) (c : String) :
    (OrigServer.calculate_billing t n c).toCommon =
      FixedServer.calculate_billing t n c := by
  unfold OrigServer.calculate_billing FixedServer.calculate_billing
  have hbt : OrigServer.BILLING_TIERS.lookup t = FixedServer.BILLING_TIERS.lookup t := rfl
  rw [hbt]
  cases hl : FixedServer.BILLING_TIERS.lookup t with
  | none => rfl
  | some tier => rfl
